import Mathlib

/-!
Verification of the HHI BLE configurator's device-register protocol layer
(`src/App.tsx`, most recent variant, lines 24-352), shallowly embedded in Lean.

Modelling conventions:
* JS numbers holding register values are modelled as `Int` (the UI can hold
  negative or oversized values before encoding).
* Wire bytes are `List Nat`, each entry intended `< 256`.
* JS strings are modelled as their sequence of Unicode scalar values
  (`List Nat`); `TextEncoder`/`TextDecoder` are modelled by an explicit
  UTF-8 encoder/decoder (`encodeStr`/`decodeStr`).
* A resolved GATT service is modelled as `Device : Nat → Option (List Nat)`:
  for each characteristic UUID, the bytes a read delivers, or `none` when
  `getCharacteristic`/`readValue` rejects (characteristic absent, etc.).
-/

namespace HHI

/-! ## Register catalog (App.tsx lines 25-47) -/

def BATTERY_LEVEL_CHAR_UUID : Nat := 0x2a19

namespace UUIDs

def operatingMode        : Nat := 0xbb02
def stimAmplitude        : Nat := 0xbb03
def stimFrequency        : Nat := 0xbb04
def stimPulseWidth       : Nat := 0xbb05
def stimDuration         : Nat := 0xbb06
def emgThreshold         : Nat := 0xbb07
def mqttServerPort       : Nat := 0xbb09
def masterNameAddr       : Nat := 0xbb0a
def minionNameAddr       : Nat := 0xbb0b
def wifiSSID             : Nat := 0xbb0c
def wifiPassword         : Nat := 0xbb0d
def wifiStatus           : Nat := 0xbb0e
def wifiIP               : Nat := 0xbb0f
def currentStimAmplitude : Nat := 0xbb10
def triggerEnableMask    : Nat := 0xbb11
def triggerStimulation   : Nat := 0xbb12
def stimNumPulses        : Nat := 0xbb13

end UUIDs

/-! ## Codec (App.tsx lines 50-60)

`toUint8` is `(n: number) => new Uint8Array([n & 0xff])`; for any integer
`n`, JS `n & 0xff` equals `n mod 256` taken into `[0, 256)`.

`toUint16LE` builds a 2-byte buffer and calls `DataView.setUint16(0, n, true)`:
the stored value is `ToUint16(n) = n mod 2^16` laid out least-significant
byte first. -/

def toUint8 (n : Int) : List Nat := [(n % 256).toNat]

def toUint16LE (n : Int) : List Nat :=
  [(n % 65536).toNat % 256, (n % 65536).toNat / 256]

/-- `fromUint8` is `dv.getUint8(0)`: reads byte 0, throws on an empty buffer
(modelled as `none`). -/
def fromUint8 : List Nat → Option Nat
  | b :: _ => some b
  | [] => none

/-- `fromUint16LE` is `dv.getUint16(0, true)`: reads bytes 0 and 1
little-endian, throws if fewer than two bytes are present. -/
def fromUint16LE : List Nat → Option Nat
  | b0 :: b1 :: _ => some (b0 + 256 * b1)
  | _ => none

/-- A Unicode scalar value: what one position of a well-formed JS string
holds after `TextEncoder`'s UTF-16-to-scalar conversion. -/
def ValidScalar (c : Nat) : Prop :=
  c < 0x110000 ∧ ¬(0xd800 ≤ c ∧ c ≤ 0xdfff)

instance (c : Nat) : Decidable (ValidScalar c) := by
  unfold ValidScalar; infer_instance

/-- UTF-8 encoding of one scalar value (the per-code-point action of
`TextEncoder().encode`). -/
def encodeChar (c : Nat) : List Nat :=
  if c < 0x80 then [c]
  else if c < 0x800 then [0xc0 + c / 64, 0x80 + c % 64]
  else if c < 0x10000 then
    [0xe0 + c / 4096, 0x80 + c / 64 % 64, 0x80 + c % 64]
  else
    [0xf0 + c / 262144, 0x80 + c / 4096 % 64, 0x80 + c / 64 % 64, 0x80 + c % 64]

/-- `encodeStr` is `(s: string) => new TextEncoder().encode(s)`: the
concatenated UTF-8 encoding, no length prefix, no terminator, and no
failure path (it is total). -/
def encodeStr : List Nat → List Nat
  | [] => []
  | c :: cs => encodeChar c ++ encodeStr cs

/-- The replacement character U+FFFD emitted by `TextDecoder` on invalid
input. -/
def repl : Nat := 0xfffd

/-- UTF-8 continuation byte test. -/
def isCont (b : Nat) : Bool := 0x80 ≤ b && b ≤ 0xbf

/-- `decodeStr` is `(dv: DataView) => new TextDecoder().decode(dv.buffer)`:
the WHATWG UTF-8 decoder with replacement-character error mode.  Lead-byte
ranges and the restricted second-byte windows (overlong, surrogate and
out-of-range exclusions) follow the WHATWG table. -/
def decodeStr : List Nat → List Nat
  | [] => []
  | b :: rest =>
    if b ≤ 0x7f then b :: decodeStr rest
    else if b < 0xc2 then repl :: decodeStr rest
    else if b ≤ 0xdf then
      match rest with
      | [] => [repl]
      | b1 :: rest2 =>
        if isCont b1 then ((b - 0xc0) * 64 + (b1 - 0x80)) :: decodeStr rest2
        else repl :: decodeStr (b1 :: rest2)
    else if b ≤ 0xef then
      match rest with
      | [] => [repl]
      | b1 :: rest2 =>
        if (if b = 0xe0 then 0xa0 else 0x80) ≤ b1 ∧
           b1 ≤ (if b = 0xed then 0x9f else 0xbf) then
          match rest2 with
          | [] => [repl]
          | b2 :: rest3 =>
            if isCont b2 then
              ((b - 0xe0) * 4096 + (b1 - 0x80) * 64 + (b2 - 0x80)) ::
                decodeStr rest3
            else repl :: decodeStr (b2 :: rest3)
        else repl :: decodeStr (b1 :: rest2)
    else if b ≤ 0xf4 then
      match rest with
      | [] => [repl]
      | b1 :: rest2 =>
        if (if b = 0xf0 then 0x90 else 0x80) ≤ b1 ∧
           b1 ≤ (if b = 0xf4 then 0x8f else 0xbf) then
          match rest2 with
          | [] => [repl]
          | b2 :: rest3 =>
            if isCont b2 then
              match rest3 with
              | [] => [repl]
              | b3 :: rest4 =>
                if isCont b3 then
                  ((b - 0xf0) * 262144 + (b1 - 0x80) * 4096 +
                    (b2 - 0x80) * 64 + (b3 - 0x80)) :: decodeStr rest4
                else repl :: decodeStr (b3 :: rest4)
            else repl :: decodeStr (b2 :: rest3)
        else repl :: decodeStr (b1 :: rest2)
    else repl :: decodeStr rest


/-! ## Application state (App.tsx lines 63-98)

One record collecting the `useState` cells: the BLE handles (modelled as
presence booleans), ConfigState, StatusState, the Wi-Fi/MQTT credential
strings and the debug log.  Numeric register values are `Int` because the
UI holds raw JS numbers; strings are scalar-value lists. -/

/-- A resolved GATT service: per characteristic UUID, the bytes a read
delivers, or `none` when `getCharacteristic`/`readValue` rejects. -/
def Device : Type := Nat → Option (List Nat)

/-- Debug-log events.  `readOk`/`readFail` stand for the per-register log
lines produced around each read attempt; `note` for the free-text progress
lines; `disconnected` for the line logged by `onDisconnected`;
`stimRemote` for the remote-trigger notification lines. -/
inductive LogEntry where
  | readOk (uuid : Nat)
  | readFail (uuid : Nat)
  | note
  | disconnected
  | stimRemote (flag : Bool)
  deriving DecidableEq, Repr

structure AppState where
  device : Bool
  hhiSvc : Bool
  operatingMode : Int
  stimAmplitude : Int
  stimFrequency : Int
  stimPulseWidth : Int
  stimDuration : Int
  stimNumPulses : Int
  triggerMask : Int
  emgThreshold : Int
  battery : Nat
  wifiConnected : Bool
  mqttConnected : Bool
  wifiIP : List Nat
  wifiSSID : List Nat
  wifiPassword : List Nat
  mqttServerPort : List Nat
  masterNameAddr : List Nat
  minionNameAddr : List Nat
  logLines : List LogEntry
  deriving DecidableEq, Repr

/-- The `useState` initial values (App.tsx lines 65-93). -/
def initState : AppState :=
  { device := false, hhiSvc := false,
    operatingMode := 0, stimAmplitude := 0, stimFrequency := 20,
    stimPulseWidth := 200, stimDuration := 1, stimNumPulses := 0,
    triggerMask := 0, emgThreshold := 0,
    battery := 0, wifiConnected := false, mqttConnected := false,
    wifiIP := [], wifiSSID := [], wifiPassword := [],
    mqttServerPort := [], masterNameAddr := [], minionNameAddr := [],
    logLines := [] }

/-! ## Disconnect handler (App.tsx lines 101-112) -/

/-- `onDisconnected`: logs, drops both BLE handles, and resets the
connection-related status fields to their defaults; every other field is
left untouched. -/
def onDisconnected (s : AppState) : AppState :=
  { s with logLines := s.logLines ++ [.disconnected],
           device := false, hhiSvc := false,
           battery := 0, wifiConnected := false, mqttConnected := false,
           wifiIP := [] }

/-! ## Initial read (App.tsx lines 156-227)

Each helper resolves the characteristic, reads and decodes it, and calls
its setter; any failure (absent characteristic, rejected read, too-short
buffer) is caught inside the helper, logged, and skipped. -/

/-- `readUint8` helper (lines 160-169). -/
def readUint8 (dev : Device) (u : Nat) (set : AppState → Int → AppState)
    (s : AppState) : AppState :=
  match dev u with
  | some (b :: _) =>
    let s2 := set s (b : Int)
    { s2 with logLines := s2.logLines ++ [.readOk u] }
  | _ => { s with logLines := s.logLines ++ [.readFail u] }

/-- `readUint16LE` helper (lines 172-181). -/
def readUint16LE (dev : Device) (u : Nat) (set : AppState → Int → AppState)
    (s : AppState) : AppState :=
  match dev u with
  | some (b0 :: b1 :: _) =>
    let s2 := set s ((b0 + 256 * b1 : Nat) : Int)
    { s2 with logLines := s2.logLines ++ [.readOk u] }
  | _ => { s with logLines := s.logLines ++ [.readFail u] }

/-- `readString` helper (lines 184-193); `decodeStr` never fails, so only
characteristic resolution / read failure is caught. -/
def readString (dev : Device) (u : Nat) (set : AppState → List Nat → AppState)
    (s : AppState) : AppState :=
  match dev u with
  | some bs =>
    let s2 := set s (decodeStr bs)
    { s2 with logLines := s2.logLines ++ [.readOk u] }
  | none => { s with logLines := s.logLines ++ [.readFail u] }

/-- The inline Wi-Fi-status read (lines 203-211): one raw byte decomposed
into the two connectivity booleans, bit 0 = Wi-Fi, bit 1 = MQTT. -/
def stepWifiStatus (dev : Device) (s : AppState) : AppState :=
  match dev UUIDs.wifiStatus with
  | some (b :: _) =>
    { s with wifiConnected := b &&& 0x01 != 0,
             mqttConnected := b &&& 0x02 != 0,
             logLines := s.logLines ++ [.readOk UUIDs.wifiStatus] }
  | _ => { s with logLines := s.logLines ++ [.readFail UUIDs.wifiStatus] }

/-- `readInitial` (lines 156-227), in exactly the source's sequence. -/
def readInitial (dev : Device) (s : AppState) : AppState :=
  let s1 := { s with logLines := s.logLines ++ [.note] }
  let s2 := readUint8 dev UUIDs.operatingMode
    (fun t v => { t with operatingMode := v }) s1
  let s3 := readUint16LE dev UUIDs.stimAmplitude
    (fun t v => { t with stimAmplitude := v }) s2
  let s4 := readUint8 dev UUIDs.emgThreshold
    (fun t v => { t with emgThreshold := v }) s3
  let s5 := stepWifiStatus dev s4
  let s6 := readString dev UUIDs.wifiIP (fun t v => { t with wifiIP := v }) s5
  let s7 := readString dev UUIDs.wifiSSID (fun t v => { t with wifiSSID := v }) s6
  let s8 := readString dev UUIDs.mqttServerPort
    (fun t v => { t with mqttServerPort := v }) s7
  let s9 := readString dev UUIDs.masterNameAddr
    (fun t v => { t with masterNameAddr := v }) s8
  let s10 := readString dev UUIDs.minionNameAddr
    (fun t v => { t with minionNameAddr := v }) s9
  let s11 := { s10 with logLines := s10.logLines ++ [.note] }
  let s12 := readUint8 dev UUIDs.stimFrequency
    (fun t v => { t with stimFrequency := v }) s11
  let s13 := readUint16LE dev UUIDs.stimPulseWidth
    (fun t v => { t with stimPulseWidth := v }) s12
  let s14 := readUint8 dev UUIDs.stimDuration
    (fun t v => { t with stimDuration := v }) s13
  let s15 := readUint16LE dev UUIDs.stimNumPulses
    (fun t v => { t with stimNumPulses := v }) s14
  let s16 := readUint8 dev UUIDs.triggerEnableMask
    (fun t v => { t with triggerMask := v }) s15
  { s16 with logLines := s16.logLines ++ [.note] }

/-! ## Result-tracking helpers

Per-register summaries used to characterise `readInitial`: the value a
field ends with, and the log entry an attempt produces, as functions of
the device alone. -/

/-- Final value of a uint8-read field: the first byte when the read
succeeds, the previous value otherwise. -/
def readU8Val (dev : Device) (u : Nat) (old : Int) : Int :=
  match dev u with
  | some (b :: _) => (b : Int)
  | _ => old

/-- Final value of a uint16-le-read field. -/
def readU16Val (dev : Device) (u : Nat) (old : Int) : Int :=
  match dev u with
  | some (b0 :: b1 :: _) => ((b0 + 256 * b1 : Nat) : Int)
  | _ => old

/-- Final value of a string-read field. -/
def readStrVal (dev : Device) (u : Nat) (old : List Nat) : List Nat :=
  match dev u with
  | some bs => decodeStr bs
  | none => old

/-- Final value of one connectivity flag (`mask` = 1 for Wi-Fi, 2 for
MQTT). -/
def readWifiFlag (dev : Device) (mask : Nat) (old : Bool) : Bool :=
  match dev UUIDs.wifiStatus with
  | some (b :: _) => b &&& mask != 0
  | _ => old

/-- Log entry produced by a uint8 read attempt at `u`. -/
def entryU8 (dev : Device) (u : Nat) : LogEntry :=
  match dev u with
  | some (_ :: _) => .readOk u
  | _ => .readFail u

/-- Log entry produced by a uint16-le read attempt at `u`. -/
def entryU16 (dev : Device) (u : Nat) : LogEntry :=
  match dev u with
  | some (_ :: _ :: _) => .readOk u
  | _ => .readFail u

/-- Log entry produced by a string read attempt at `u`. -/
def entryStr (dev : Device) (u : Nat) : LogEntry :=
  match dev u with
  | some _ => .readOk u
  | none => .readFail u

/-- The log suffix one `readInitial` run appends, in source order. -/
def initReadLog (dev : Device) : List LogEntry :=
  [.note, entryU8 dev UUIDs.operatingMode, entryU16 dev UUIDs.stimAmplitude,
   entryU8 dev UUIDs.emgThreshold, entryU8 dev UUIDs.wifiStatus,
   entryStr dev UUIDs.wifiIP, entryStr dev UUIDs.wifiSSID,
   entryStr dev UUIDs.mqttServerPort, entryStr dev UUIDs.masterNameAddr,
   entryStr dev UUIDs.minionNameAddr, .note,
   entryU8 dev UUIDs.stimFrequency, entryU16 dev UUIDs.stimPulseWidth,
   entryU8 dev UUIDs.stimDuration, entryU16 dev UUIDs.stimNumPulses,
   entryU8 dev UUIDs.triggerEnableMask, .note]

/-- The UUID a log entry records a read attempt on, if any. -/
def readUUIDof : LogEntry → Option Nat
  | .readOk u => some u
  | .readFail u => some u
  | _ => none

/-- The UUIDs of the read attempts recorded in a log fragment, in order. -/
def readLogUUIDs (l : List LogEntry) : List Nat := l.filterMap readUUIDof


/-- The characteristic UUIDs `readInitial` attempts to read, in source
order (App.tsx lines 196-224). -/
def initReadUUIDs : List Nat :=
  [UUIDs.operatingMode, UUIDs.stimAmplitude, UUIDs.emgThreshold,
   UUIDs.wifiStatus, UUIDs.wifiIP, UUIDs.wifiSSID, UUIDs.mqttServerPort,
   UUIDs.masterNameAddr, UUIDs.minionNameAddr, UUIDs.stimFrequency,
   UUIDs.stimPulseWidth, UUIDs.stimDuration, UUIDs.stimNumPulses,
   UUIDs.triggerEnableMask]

/-! ## Network-settings re-read (App.tsx lines 277-302)

`readNetworkSettings` refreshes the four network identity strings when the
operating mode enters 1 or 2; it bails out when no HHI service handle is
held. -/

def readNetworkSettings (dev : Device) (s : AppState) : AppState :=
  if s.hhiSvc = false then s else
  readString dev UUIDs.minionNameAddr (fun t v => { t with minionNameAddr := v })
    (readString dev UUIDs.masterNameAddr (fun t v => { t with masterNameAddr := v })
      (readString dev UUIDs.mqttServerPort (fun t v => { t with mqttServerPort := v })
        (readString dev UUIDs.wifiSSID (fun t v => { t with wifiSSID := v }) s)))

/-- Log suffix of one `readNetworkSettings` pass (when a service handle is
held). -/
def netReadLog (dev : Device) : List LogEntry :=
  [entryStr dev UUIDs.wifiSSID, entryStr dev UUIDs.mqttServerPort,
   entryStr dev UUIDs.masterNameAddr, entryStr dev UUIDs.minionNameAddr]

/-! ## Connect flow (App.tsx lines 115-153) -/

/-- What the platform exposes after device selection: the standard battery
level characteristic's bytes when the battery service resolves, and the
HHI control service when it resolves. -/
structure BLE where
  battery : Option (List Nat)
  hhi : Option Device

/-- `onConnect` after a successful `requestDevice`/`gatt.connect`: stores
the device handle, best-effort reads (and subscribes) the standard battery
level, then resolves the HHI service, stores its handle and runs the
initial read.  A battery-service failure only logs; an HHI-service
failure aborts the rest (the catch shows a toast and keeps prior state
changes). -/
def onConnect (ble : BLE) (s : AppState) : AppState :=
  let s1 := { s with device := true }
  let s2 := match ble.battery with
    | some (b :: _) =>
      { s1 with battery := b,
                logLines := s1.logLines ++ [.readOk BATTERY_LEVEL_CHAR_UUID] }
    | _ => { s1 with logLines := s1.logLines ++ [.readFail BATTERY_LEVEL_CHAR_UUID] }
  match ble.hhi with
  | some dev => readInitial dev { s2 with hhiSvc := true }
  | none => s2

/-- Log entry of the battery read attempt inside `onConnect`. -/
def entryBattery (ble : BLE) : LogEntry :=
  match ble.battery with
  | some (_ :: _) => .readOk BATTERY_LEVEL_CHAR_UUID
  | _ => .readFail BATTERY_LEVEL_CHAR_UUID

/-! ## Notifications (App.tsx lines 231-274 and 135-138) -/

/-- The characteristics `startNotifications` subscribes to, in source
order; the standard battery characteristic is subscribed separately inside
`onConnect`. -/
def subscribeUUIDs : List Nat :=
  [UUIDs.wifiStatus, UUIDs.wifiIP, UUIDs.currentStimAmplitude,
   UUIDs.emgThreshold, UUIDs.triggerStimulation]

/-- Dispatch of one delivered `characteristicvaluechanged` event to the
handler armed for that characteristic (App.tsx lines 250-273 for the HHI
registers, 136-138 for battery).  A decode throwing inside a handler
(too-short buffer) leaves state unchanged. -/
def notifStep (s : AppState) (u : Nat) (bytes : List Nat) : AppState :=
  if u = UUIDs.wifiStatus then
    match fromUint8 bytes with
    | some v => { s with wifiConnected := v &&& 0x01 != 0,
                         mqttConnected := v &&& 0x02 != 0 }
    | none => s
  else if u = UUIDs.wifiIP then { s with wifiIP := decodeStr bytes }
  else if u = UUIDs.currentStimAmplitude then
    match fromUint16LE bytes with
    | some v => { s with stimAmplitude := (v : Int) }
    | none => s
  else if u = UUIDs.emgThreshold then
    match fromUint8 bytes with
    | some v => { s with emgThreshold := (v : Int) }
    | none => s
  else if u = UUIDs.triggerStimulation then
    match fromUint8 bytes with
    | some v => { s with logLines := s.logLines ++ [.stimRemote (v != 0)] }
    | none => s
  else if u = BATTERY_LEVEL_CHAR_UUID then
    match fromUint8 bytes with
    | some v => { s with battery := v }
    | none => s
  else s

/-! ## Asynchronous events after connection

The events that can reach the application once a session existed: a
notification delivery, an unsolicited link drop (`gattserverdisconnected`
firing `onDisconnected`), or a user edit of one of the form fields
(the `onChange` handlers).  Editing the operating mode to 1 or 2 also
triggers the `useEffect` network re-read (App.tsx lines 297-302). -/
inductive Event where
  | notif (uuid : Nat) (bytes : List Nat)
  | linkDrop
  | editMode (v : Int)
  | editAmplitude (v : Int)
  | editFrequency (v : Int)
  | editPulseWidth (v : Int)
  | editDuration (v : Int)
  | editNumPulses (v : Int)
  | editEmgThreshold (v : Int)
  | editTriggerMask (v : Int)
  | editSSID (v : List Nat)
  | editPassword (v : List Nat)
  | editMqttServerPort (v : List Nat)
  | editMasterName (v : List Nat)
  | editMinionName (v : List Nat)
  deriving DecidableEq, Repr

/-- Whether an event is a notification delivery. -/
def Event.isNotif : Event → Bool
  | .notif _ _ => true
  | _ => false

/-- One application step.  `dev` is the service the held handle would
refer to; `readNetworkSettings` ignores it unless a handle is held. -/
def step (dev : Device) (s : AppState) : Event → AppState
  | .notif u b => notifStep s u b
  | .linkDrop => onDisconnected s
  | .editMode v =>
    let t := { s with operatingMode := v }
    if v = 1 ∨ v = 2 then readNetworkSettings dev t else t
  | .editAmplitude v => { s with stimAmplitude := v }
  | .editFrequency v => { s with stimFrequency := v }
  | .editPulseWidth v => { s with stimPulseWidth := v }
  | .editDuration v => { s with stimDuration := v }
  | .editNumPulses v => { s with stimNumPulses := v }
  | .editEmgThreshold v => { s with emgThreshold := v }
  | .editTriggerMask v => { s with triggerMask := v }
  | .editSSID v => { s with wifiSSID := v }
  | .editPassword v => { s with wifiPassword := v }
  | .editMqttServerPort v => { s with mqttServerPort := v }
  | .editMasterName v => { s with masterNameAddr := v }
  | .editMinionName v => { s with minionNameAddr := v }

/-! ## Writers (App.tsx lines 312-345)

Each writer is modelled by the sequence of characteristic writes it
issues, as `(uuid, bytes)` pairs.  `wAvail u` tells whether a write to
characteristic `u` resolves; a rejected write is not recorded and aborts
the remaining writes of the surrounding `async` function, except where
the source attaches `.catch` to the individual write. -/

/-- `saveStimSettings` (lines 312-325): amplitude, frequency, pulse width,
duration (failure swallowed by `.catch`), pulse count, EMG threshold,
trigger mask (failure swallowed by `.catch`).  No value validation is
performed before encoding. -/
def saveStimSettings (wAvail : Nat → Bool) (s : AppState) : List (Nat × List Nat) :=
  if s.hhiSvc = false then [] else
  if wAvail UUIDs.stimAmplitude = false then [] else
  (UUIDs.stimAmplitude, toUint16LE s.stimAmplitude) ::
  (if wAvail UUIDs.stimFrequency = false then [] else
   (UUIDs.stimFrequency, toUint8 s.stimFrequency) ::
   (if wAvail UUIDs.stimPulseWidth = false then [] else
    (UUIDs.stimPulseWidth, toUint16LE s.stimPulseWidth) ::
    ((if wAvail UUIDs.stimDuration then
        [(UUIDs.stimDuration, toUint8 s.stimDuration)] else []) ++
     (if wAvail UUIDs.stimNumPulses = false then [] else
      (UUIDs.stimNumPulses, toUint16LE s.stimNumPulses) ::
      (if wAvail UUIDs.emgThreshold = false then [] else
       (UUIDs.emgThreshold, toUint8 s.emgThreshold) ::
       (if wAvail UUIDs.triggerEnableMask then
          [(UUIDs.triggerEnableMask, toUint8 s.triggerMask)] else []))))))

/-- `saveNetworkSettings` (lines 327-345): SSID, then the password only
when the in-memory password string is truthy (non-empty), then MQTT
server/port, master name, minion name; the whole block is one `try`, so
any rejected write aborts the remainder. -/
def saveNetworkSettings (wAvail : Nat → Bool) (s : AppState) : List (Nat × List Nat) :=
  if s.hhiSvc = false then [] else
  let tailWrites : List (Nat × List Nat) :=
    if wAvail UUIDs.mqttServerPort = false then [] else
    (UUIDs.mqttServerPort, encodeStr s.mqttServerPort) ::
    (if wAvail UUIDs.masterNameAddr = false then [] else
     (UUIDs.masterNameAddr, encodeStr s.masterNameAddr) ::
     (if wAvail UUIDs.minionNameAddr then
        [(UUIDs.minionNameAddr, encodeStr s.minionNameAddr)] else []))
  if wAvail UUIDs.wifiSSID = false then [] else
  (UUIDs.wifiSSID, encodeStr s.wifiSSID) ::
  (if s.wifiPassword = [] then tailWrites
   else if wAvail UUIDs.wifiPassword then
     (UUIDs.wifiPassword, encodeStr s.wifiPassword) :: tailWrites
   else [])


/-! ## Concrete fixtures used by witnesses and counterexamples -/

/-- A device exposing every characteristic with bytes `[1, 0]`. -/
def devAll : Device := fun _ => some [1, 0]

/-- A device on which only the EMG-threshold read fails. -/
def devNoEmg : Device := fun u =>
  if u = UUIDs.emgThreshold then none else some [1, 0]

/-- A platform with the battery service (level 80) and the full HHI
service. -/
def bleAll : BLE := { battery := some [80], hhi := some devAll }

/-- The StatusState defaults together with invalidated session handles:
what a disconnect must leave behind. -/
def StatusCleared (t : AppState) : Prop :=
  t.battery = 0 ∧ t.wifiConnected = false ∧ t.mqttConnected = false ∧
  t.wifiIP = [] ∧ t.device = false ∧ t.hhiSvc = false

/-- A populated connected state used by the C7 witness. -/
def sConn : AppState :=
  { initState with
      battery := 77
      wifiConnected := true
      mqttConnected := true
      wifiIP := [49]
      device := true
      hhiSvc := true }

/-- Connected state whose amplitude field holds the out-of-range -1. -/
def sNegAmp : AppState := { sConn with stimAmplitude := -1 }

/-- Connected state whose amplitude field holds the out-of-range 70000. -/
def sBigAmp : AppState := { sConn with stimAmplitude := 70000 }

end HHI

namespace HHI

set_option maxRecDepth 4000

/-! ## Codec lemmas -/

/-- Decoding the UTF-8 encoding of one valid scalar consumes exactly its
bytes and yields the scalar back. -/
theorem decode_encodeChar (c : Nat) (h : ValidScalar c) (l : List Nat) :
    decodeStr (encodeChar c ++ l) = c :: decodeStr l := by
  obtain ⟨h1, h2⟩ := h
  by_cases hA : c < 0x80
  · simp only [encodeChar, if_pos hA, List.cons_append, List.nil_append]
    conv_lhs => rw [decodeStr.eq_def]
    simp only [if_pos (by omega : c ≤ 0x7f)]
  · by_cases hB : c < 0x800
    · simp only [encodeChar, if_neg hA, if_pos hB, List.cons_append, List.nil_append]
      conv_lhs => rw [decodeStr.eq_def]
      have e1 : ¬ (0xc0 + c / 64 ≤ 0x7f) := by omega
      have e2 : ¬ (0xc0 + c / 64 < 0xc2) := by omega
      have e3 : 0xc0 + c / 64 ≤ 0xdf := by omega
      have e4 : isCont (0x80 + c % 64) = true := by
        simp only [isCont, Bool.and_eq_true, decide_eq_true_eq]; omega
      simp only [if_neg e1, if_neg e2, if_pos e3, e4, if_pos]
      congr 1
      omega
    · by_cases hC : c < 0x10000
      · simp only [encodeChar, if_neg hA, if_neg hB, if_pos hC, List.cons_append,
          List.nil_append]
        conv_lhs => rw [decodeStr.eq_def]
        have e1 : ¬ (0xe0 + c / 4096 ≤ 0x7f) := by omega
        have e2 : ¬ (0xe0 + c / 4096 < 0xc2) := by omega
        have e3 : ¬ (0xe0 + c / 4096 ≤ 0xdf) := by omega
        have e4 : 0xe0 + c / 4096 ≤ 0xef := by omega
        have e5 : (if 0xe0 + c / 4096 = 0xe0 then 0xa0 else 0x80) ≤ 0x80 + c / 64 % 64 ∧
            0x80 + c / 64 % 64 ≤ (if 0xe0 + c / 4096 = 0xed then 0x9f else 0xbf) := by
          constructor
          · split <;> omega
          · split <;> omega
        have e6 : isCont (0x80 + c % 64) = true := by
          simp only [isCont, Bool.and_eq_true, decide_eq_true_eq]; omega
        simp only [if_neg e1, if_neg e2, if_neg e3, if_pos e4, if_pos e5, e6, if_pos]
        congr 1
        omega
      · simp only [encodeChar, if_neg hA, if_neg hB, if_neg hC, List.cons_append,
          List.nil_append]
        conv_lhs => rw [decodeStr.eq_def]
        have e1 : ¬ (0xf0 + c / 262144 ≤ 0x7f) := by omega
        have e2 : ¬ (0xf0 + c / 262144 < 0xc2) := by omega
        have e3 : ¬ (0xf0 + c / 262144 ≤ 0xdf) := by omega
        have e4 : ¬ (0xf0 + c / 262144 ≤ 0xef) := by omega
        have e5 : 0xf0 + c / 262144 ≤ 0xf4 := by omega
        have e6 : (if 0xf0 + c / 262144 = 0xf0 then 0x90 else 0x80) ≤ 0x80 + c / 4096 % 64 ∧
            0x80 + c / 4096 % 64 ≤ (if 0xf0 + c / 262144 = 0xf4 then 0x8f else 0xbf) := by
          constructor
          · split <;> omega
          · split <;> omega
        have e7 : isCont (0x80 + c / 64 % 64) = true := by
          simp only [isCont, Bool.and_eq_true, decide_eq_true_eq]; omega
        have e8 : isCont (0x80 + c % 64) = true := by
          simp only [isCont, Bool.and_eq_true, decide_eq_true_eq]; omega
        simp only [if_neg e1, if_neg e2, if_neg e3, if_neg e4, if_pos e5, if_pos e6,
          e7, e8, if_pos]
        congr 1
        omega

/-- UTF-8 round-trip on whole strings of valid scalar values. -/
theorem decode_encodeStr (s : List Nat) (h : ∀ c ∈ s, ValidScalar c) :
    decodeStr (encodeStr s) = s := by
  induction s with
  | nil => rfl
  | cons c cs ih =>
    rw [encodeStr, decode_encodeChar c (h c (by simp)) (encodeStr cs),
      ih (fun x hx => h x (by simp [hx]))]

/-! ## Claim C1 -/

/-- C1: for every `0 ≤ v ≤ 65535`, `toUint16LE` encodes `v` as exactly two
bytes, least-significant byte first (`[v mod 256, v div 256]`); in
particular `toUint16LE 0x1234 = [0x34, 0x12]`. -/
theorem c1_uint16_le_two_bytes (v : Nat) (h : v ≤ 65535) :
    toUint16LE (v : Int) = [v % 256, v / 256] ∧
    (toUint16LE (v : Int)).length = 2 ∧
    toUint16LE 0x1234 = [0x34, 0x12] := by
  refine ⟨?_, by simp [toUint16LE], by decide⟩
  simp only [toUint16LE, List.cons.injEq, and_true]
  omega

/-- Witness for C1 at `v = 0x1234`. -/
theorem c1_uint16_le_two_bytes_witness :
    toUint16LE ((0x1234 : Nat) : Int) = [0x1234 % 256, 0x1234 / 256] ∧
    (toUint16LE ((0x1234 : Nat) : Int)).length = 2 ∧
    toUint16LE 0x1234 = [0x34, 0x12] :=
  c1_uint16_le_two_bytes 0x1234 (by decide)

/-! ## Claim C2 -/

/-- C2: decode-of-encode is the identity for every register wire type:
`fromUint8 (toUint8 v) = v` for `0 ≤ v ≤ 255`,
`fromUint16LE (toUint16LE v) = v` for `0 ≤ v ≤ 65535`, and
`decodeStr (encodeStr s) = s` for every string of Unicode scalar values
(in particular for every string up to any declared maximum byte length). -/
theorem c2_codec_roundtrip (v8 : Nat) (h8 : v8 ≤ 255)
    (v16 : Nat) (h16 : v16 ≤ 65535)
    (s : List Nat) (hs : ∀ c ∈ s, ValidScalar c) :
    fromUint8 (toUint8 (v8 : Int)) = some v8 ∧
    fromUint16LE (toUint16LE (v16 : Int)) = some v16 ∧
    decodeStr (encodeStr s) = s := by
  refine ⟨?_, ?_, decode_encodeStr s hs⟩
  · simp only [toUint8, fromUint8, Option.some.injEq]
    omega
  · simp only [toUint16LE, fromUint16LE, Option.some.injEq]
    omega

/-- Witness for C2 at `v8 = 200`, `v16 = 0x1234`,
`s = "H α € 😀"'s scalar values. -/
theorem c2_codec_roundtrip_witness :
    fromUint8 (toUint8 ((200 : Nat) : Int)) = some 200 ∧
    fromUint16LE (toUint16LE ((4660 : Nat) : Int)) = some 4660 ∧
    decodeStr (encodeStr [72, 945, 8364, 128512]) = [72, 945, 8364, 128512] :=
  c2_codec_roundtrip 200 (by decide) 4660 (by decide)
    [72, 945, 8364, 128512] (by decide)

theorem rMode_eq (dev : Device) (s : AppState) :
    readUint8 dev UUIDs.operatingMode (fun t v => { t with operatingMode := v }) s =
    { s with operatingMode := readU8Val dev UUIDs.operatingMode s.operatingMode,
             logLines := s.logLines ++ [entryU8 dev UUIDs.operatingMode] } := by
  unfold readUint8 readU8Val entryU8
  cases dev UUIDs.operatingMode with
  | none => rfl
  | some l => cases l <;> rfl

theorem rAmp_eq (dev : Device) (s : AppState) :
    readUint16LE dev UUIDs.stimAmplitude (fun t v => { t with stimAmplitude := v }) s =
    { s with stimAmplitude := readU16Val dev UUIDs.stimAmplitude s.stimAmplitude,
             logLines := s.logLines ++ [entryU16 dev UUIDs.stimAmplitude] } := by
  unfold readUint16LE readU16Val entryU16
  cases dev UUIDs.stimAmplitude with
  | none => rfl
  | some l => cases l with
    | nil => rfl
    | cons b t => cases t <;> rfl

theorem rEmg_eq (dev : Device) (s : AppState) :
    readUint8 dev UUIDs.emgThreshold (fun t v => { t with emgThreshold := v }) s =
    { s with emgThreshold := readU8Val dev UUIDs.emgThreshold s.emgThreshold,
             logLines := s.logLines ++ [entryU8 dev UUIDs.emgThreshold] } := by
  unfold readUint8 readU8Val entryU8
  cases dev UUIDs.emgThreshold with
  | none => rfl
  | some l => cases l <;> rfl

theorem rWifiStatus_eq (dev : Device) (s : AppState) :
    stepWifiStatus dev s =
    { s with wifiConnected := readWifiFlag dev 0x01 s.wifiConnected,
             mqttConnected := readWifiFlag dev 0x02 s.mqttConnected,
             logLines := s.logLines ++ [entryU8 dev UUIDs.wifiStatus] } := by
  unfold stepWifiStatus readWifiFlag entryU8
  cases dev UUIDs.wifiStatus with
  | none => rfl
  | some l => cases l <;> rfl

theorem rIP_eq (dev : Device) (s : AppState) :
    readString dev UUIDs.wifiIP (fun t v => { t with wifiIP := v }) s =
    { s with wifiIP := readStrVal dev UUIDs.wifiIP s.wifiIP,
             logLines := s.logLines ++ [entryStr dev UUIDs.wifiIP] } := by
  unfold readString readStrVal entryStr
  cases dev UUIDs.wifiIP <;> rfl

theorem rSSID_eq (dev : Device) (s : AppState) :
    readString dev UUIDs.wifiSSID (fun t v => { t with wifiSSID := v }) s =
    { s with wifiSSID := readStrVal dev UUIDs.wifiSSID s.wifiSSID,
             logLines := s.logLines ++ [entryStr dev UUIDs.wifiSSID] } := by
  unfold readString readStrVal entryStr
  cases dev UUIDs.wifiSSID <;> rfl

theorem rMqtt_eq (dev : Device) (s : AppState) :
    readString dev UUIDs.mqttServerPort (fun t v => { t with mqttServerPort := v }) s =
    { s with mqttServerPort := readStrVal dev UUIDs.mqttServerPort s.mqttServerPort,
             logLines := s.logLines ++ [entryStr dev UUIDs.mqttServerPort] } := by
  unfold readString readStrVal entryStr
  cases dev UUIDs.mqttServerPort <;> rfl

theorem rMaster_eq (dev : Device) (s : AppState) :
    readString dev UUIDs.masterNameAddr (fun t v => { t with masterNameAddr := v }) s =
    { s with masterNameAddr := readStrVal dev UUIDs.masterNameAddr s.masterNameAddr,
             logLines := s.logLines ++ [entryStr dev UUIDs.masterNameAddr] } := by
  unfold readString readStrVal entryStr
  cases dev UUIDs.masterNameAddr <;> rfl

theorem rMinion_eq (dev : Device) (s : AppState) :
    readString dev UUIDs.minionNameAddr (fun t v => { t with minionNameAddr := v }) s =
    { s with minionNameAddr := readStrVal dev UUIDs.minionNameAddr s.minionNameAddr,
             logLines := s.logLines ++ [entryStr dev UUIDs.minionNameAddr] } := by
  unfold readString readStrVal entryStr
  cases dev UUIDs.minionNameAddr <;> rfl

theorem rFreq_eq (dev : Device) (s : AppState) :
    readUint8 dev UUIDs.stimFrequency (fun t v => { t with stimFrequency := v }) s =
    { s with stimFrequency := readU8Val dev UUIDs.stimFrequency s.stimFrequency,
             logLines := s.logLines ++ [entryU8 dev UUIDs.stimFrequency] } := by
  unfold readUint8 readU8Val entryU8
  cases dev UUIDs.stimFrequency with
  | none => rfl
  | some l => cases l <;> rfl

theorem rPW_eq (dev : Device) (s : AppState) :
    readUint16LE dev UUIDs.stimPulseWidth (fun t v => { t with stimPulseWidth := v }) s =
    { s with stimPulseWidth := readU16Val dev UUIDs.stimPulseWidth s.stimPulseWidth,
             logLines := s.logLines ++ [entryU16 dev UUIDs.stimPulseWidth] } := by
  unfold readUint16LE readU16Val entryU16
  cases dev UUIDs.stimPulseWidth with
  | none => rfl
  | some l => cases l with
    | nil => rfl
    | cons b t => cases t <;> rfl

theorem rDur_eq (dev : Device) (s : AppState) :
    readUint8 dev UUIDs.stimDuration (fun t v => { t with stimDuration := v }) s =
    { s with stimDuration := readU8Val dev UUIDs.stimDuration s.stimDuration,
             logLines := s.logLines ++ [entryU8 dev UUIDs.stimDuration] } := by
  unfold readUint8 readU8Val entryU8
  cases dev UUIDs.stimDuration with
  | none => rfl
  | some l => cases l <;> rfl

theorem rPulses_eq (dev : Device) (s : AppState) :
    readUint16LE dev UUIDs.stimNumPulses (fun t v => { t with stimNumPulses := v }) s =
    { s with stimNumPulses := readU16Val dev UUIDs.stimNumPulses s.stimNumPulses,
             logLines := s.logLines ++ [entryU16 dev UUIDs.stimNumPulses] } := by
  unfold readUint16LE readU16Val entryU16
  cases dev UUIDs.stimNumPulses with
  | none => rfl
  | some l => cases l with
    | nil => rfl
    | cons b t => cases t <;> rfl

theorem rMask_eq (dev : Device) (s : AppState) :
    readUint8 dev UUIDs.triggerEnableMask (fun t v => { t with triggerMask := v }) s =
    { s with triggerMask := readU8Val dev UUIDs.triggerEnableMask s.triggerMask,
             logLines := s.logLines ++ [entryU8 dev UUIDs.triggerEnableMask] } := by
  unfold readUint8 readU8Val entryU8
  cases dev UUIDs.triggerEnableMask with
  | none => rfl
  | some l => cases l <;> rfl

/-- Everything one `readInitial` run does, register by register. -/
theorem readInitial_eq (dev : Device) (s : AppState) :
    readInitial dev s =
    { s with
      operatingMode := readU8Val dev UUIDs.operatingMode s.operatingMode,
      stimAmplitude := readU16Val dev UUIDs.stimAmplitude s.stimAmplitude,
      emgThreshold := readU8Val dev UUIDs.emgThreshold s.emgThreshold,
      wifiConnected := readWifiFlag dev 0x01 s.wifiConnected,
      mqttConnected := readWifiFlag dev 0x02 s.mqttConnected,
      wifiIP := readStrVal dev UUIDs.wifiIP s.wifiIP,
      wifiSSID := readStrVal dev UUIDs.wifiSSID s.wifiSSID,
      mqttServerPort := readStrVal dev UUIDs.mqttServerPort s.mqttServerPort,
      masterNameAddr := readStrVal dev UUIDs.masterNameAddr s.masterNameAddr,
      minionNameAddr := readStrVal dev UUIDs.minionNameAddr s.minionNameAddr,
      stimFrequency := readU8Val dev UUIDs.stimFrequency s.stimFrequency,
      stimPulseWidth := readU16Val dev UUIDs.stimPulseWidth s.stimPulseWidth,
      stimDuration := readU8Val dev UUIDs.stimDuration s.stimDuration,
      stimNumPulses := readU16Val dev UUIDs.stimNumPulses s.stimNumPulses,
      triggerMask := readU8Val dev UUIDs.triggerEnableMask s.triggerMask,
      logLines := s.logLines ++ initReadLog dev } := by
  simp only [readInitial, rMode_eq, rAmp_eq, rEmg_eq, rWifiStatus_eq, rIP_eq, rSSID_eq,
    rMqtt_eq, rMaster_eq, rMinion_eq, rFreq_eq, rPW_eq, rDur_eq, rPulses_eq, rMask_eq]
  simp [initReadLog]

theorem readUUIDof_note : readUUIDof LogEntry.note = none := rfl

theorem readUUIDof_entryU8 (dev : Device) (u : Nat) :
    readUUIDof (entryU8 dev u) = some u := by
  unfold entryU8 readUUIDof
  cases dev u with
  | none => rfl
  | some l => cases l <;> rfl

theorem readUUIDof_entryU16 (dev : Device) (u : Nat) :
    readUUIDof (entryU16 dev u) = some u := by
  unfold entryU16 readUUIDof
  cases dev u with
  | none => rfl
  | some l => cases l with
    | nil => rfl
    | cons b t => cases t <;> rfl

theorem readUUIDof_entryStr (dev : Device) (u : Nat) :
    readUUIDof (entryStr dev u) = some u := by
  unfold entryStr readUUIDof
  cases dev u <;> rfl

/-- Whatever the device exposes, `readInitial` attempts exactly the
registers of `initReadUUIDs`, in that order. -/
theorem readLogUUIDs_initReadLog (dev : Device) :
    readLogUUIDs (initReadLog dev) = initReadUUIDs := by
  simp [readLogUUIDs, initReadLog, initReadUUIDs, List.filterMap_cons,
    readUUIDof_entryU8, readUUIDof_entryU16, readUUIDof_entryStr, readUUIDof_note]

/-- `readNetworkSettings` with a held service handle, register by
register. -/
theorem readNetworkSettings_eq (dev : Device) (s : AppState) (h : s.hhiSvc = true) :
    readNetworkSettings dev s =
    { s with
      wifiSSID := readStrVal dev UUIDs.wifiSSID s.wifiSSID,
      mqttServerPort := readStrVal dev UUIDs.mqttServerPort s.mqttServerPort,
      masterNameAddr := readStrVal dev UUIDs.masterNameAddr s.masterNameAddr,
      minionNameAddr := readStrVal dev UUIDs.minionNameAddr s.minionNameAddr,
      logLines := s.logLines ++ netReadLog dev } := by
  simp only [readNetworkSettings, h, rSSID_eq, rMqtt_eq, rMaster_eq, rMinion_eq]
  simp [netReadLog]

/-- `readNetworkSettings` without a service handle does nothing. -/
theorem readNetworkSettings_no_svc (dev : Device) (s : AppState) (h : s.hhiSvc = false) :
    readNetworkSettings dev s = s := by
  simp [readNetworkSettings, h]

/-- `onConnect` when the HHI service resolves: handles set, battery read
best-effort, then the full initial read; the log records the battery
attempt first and then the initial-read attempts. -/
theorem onConnect_eq (ble : BLE) (dev : Device) (s : AppState) (h : ble.hhi = some dev) :
    onConnect ble s =
    readInitial dev
      { s with device := true, hhiSvc := true,
               battery := (match ble.battery with
                 | some (b :: _) => b
                 | _ => s.battery),
               logLines := s.logLines ++ [entryBattery ble] } := by
  unfold onConnect entryBattery
  rw [h]
  cases hb : ble.battery with
  | none => rfl
  | some l => cases l <;> rfl

theorem and_one_ne_zero (b : Nat) : (b &&& 0x01 != 0) = b.testBit 0 := by
  have h := Nat.and_two_pow b 0
  have h2 : (2:Nat) ^ 0 = 1 := rfl
  rw [h2] at h
  rw [h]
  cases b.testBit 0 <;> rfl

theorem and_two_ne_zero (b : Nat) : (b &&& 0x02 != 0) = b.testBit 1 := by
  have h := Nat.and_two_pow b 1
  have h2 : (2:Nat) ^ 1 = 2 := rfl
  rw [h2] at h
  rw [h]
  cases b.testBit 1 <;> rfl

/-- C4: a connectivity-status byte sets the Wi-Fi flag iff its bit 0 is
set and the MQTT flag iff its bit 1 is set, each decoded independently of
the other, on both the notification path (`notifStep`) and the read path
(`readWifiFlag`); in particular `0x03` gives (true, true), `0x00` gives
(false, false) and `0x01` gives (true, false). -/
theorem c4_connectivity_bitmask (b : Nat) (s : AppState) :
    ((notifStep s UUIDs.wifiStatus [b]).wifiConnected = b.testBit 0 ∧
     (notifStep s UUIDs.wifiStatus [b]).mqttConnected = b.testBit 1) ∧
    (readWifiFlag (fun _ => some [b]) 0x01 s.wifiConnected = b.testBit 0 ∧
     readWifiFlag (fun _ => some [b]) 0x02 s.mqttConnected = b.testBit 1) ∧
    ((notifStep s UUIDs.wifiStatus [0x03]).wifiConnected = true ∧
     (notifStep s UUIDs.wifiStatus [0x03]).mqttConnected = true) ∧
    ((notifStep s UUIDs.wifiStatus [0x00]).wifiConnected = false ∧
     (notifStep s UUIDs.wifiStatus [0x00]).mqttConnected = false) ∧
    ((notifStep s UUIDs.wifiStatus [0x01]).wifiConnected = true ∧
     (notifStep s UUIDs.wifiStatus [0x01]).mqttConnected = false) :=
  ⟨⟨and_one_ne_zero b, and_two_ne_zero b⟩,
   ⟨and_one_ne_zero b, and_two_ne_zero b⟩,
   ⟨rfl, rfl⟩, ⟨rfl, rfl⟩, ⟨rfl, rfl⟩⟩

/-- C5: if the EMG-threshold read fails during the initial batch, the
failure is logged at that register, the EMG field keeps its previous
value, the sequence still runs to completion (the closing log line is
appended), and every other register's field is still populated from its
own read, unaffected by the failure. -/
theorem c5_single_failure_skipped (dev : Device) (s : AppState)
    (h : dev UUIDs.emgThreshold = none) :
    (readInitial dev s).emgThreshold = s.emgThreshold ∧
    LogEntry.readFail UUIDs.emgThreshold ∈ (readInitial dev s).logLines ∧
    (readInitial dev s).logLines = s.logLines ++ initReadLog dev ∧
    (initReadLog dev).getLast? = some LogEntry.note ∧
    (readInitial dev s).operatingMode = readU8Val dev UUIDs.operatingMode s.operatingMode ∧
    (readInitial dev s).stimAmplitude = readU16Val dev UUIDs.stimAmplitude s.stimAmplitude ∧
    (readInitial dev s).wifiConnected = readWifiFlag dev 0x01 s.wifiConnected ∧
    (readInitial dev s).mqttConnected = readWifiFlag dev 0x02 s.mqttConnected ∧
    (readInitial dev s).wifiIP = readStrVal dev UUIDs.wifiIP s.wifiIP ∧
    (readInitial dev s).wifiSSID = readStrVal dev UUIDs.wifiSSID s.wifiSSID ∧
    (readInitial dev s).mqttServerPort = readStrVal dev UUIDs.mqttServerPort s.mqttServerPort ∧
    (readInitial dev s).masterNameAddr = readStrVal dev UUIDs.masterNameAddr s.masterNameAddr ∧
    (readInitial dev s).minionNameAddr = readStrVal dev UUIDs.minionNameAddr s.minionNameAddr ∧
    (readInitial dev s).stimFrequency = readU8Val dev UUIDs.stimFrequency s.stimFrequency ∧
    (readInitial dev s).stimPulseWidth = readU16Val dev UUIDs.stimPulseWidth s.stimPulseWidth ∧
    (readInitial dev s).stimDuration = readU8Val dev UUIDs.stimDuration s.stimDuration ∧
    (readInitial dev s).stimNumPulses = readU16Val dev UUIDs.stimNumPulses s.stimNumPulses ∧
    (readInitial dev s).triggerMask = readU8Val dev UUIDs.triggerEnableMask s.triggerMask := by
  refine ⟨?_, ?_, ?_, rfl, ?_, ?_, ?_, ?_, ?_, ?_, ?_, ?_, ?_, ?_, ?_, ?_, ?_, ?_⟩ <;>
    simp only [readInitial_eq]
  · simp [readU8Val, h]
  · simp [initReadLog, entryU8, h]

/-- Witness for C5 on `devNoEmg`: the EMG field keeps its default while
the frequency field is populated from the device. -/
theorem c5_single_failure_skipped_witness :
    (readInitial devNoEmg initState).emgThreshold = initState.emgThreshold ∧
    LogEntry.readFail UUIDs.emgThreshold ∈ (readInitial devNoEmg initState).logLines ∧
    (readInitial devNoEmg initState).stimFrequency =
      readU8Val devNoEmg UUIDs.stimFrequency initState.stimFrequency := by
  obtain ⟨h1, h2, _, _, _, _, _, _, _, _, _, _, _, h3, _⟩ :=
    c5_single_failure_skipped devNoEmg initState (by rfl)
  exact ⟨h1, h2, h3⟩

/-- C9: `onDisconnected` changes only the session handles and the status
fields; every ConfigState field is left unchanged by a disconnect. -/
theorem c9_disconnect_config_frame (s : AppState) :
    (onDisconnected s).operatingMode = s.operatingMode ∧
    (onDisconnected s).stimAmplitude = s.stimAmplitude ∧
    (onDisconnected s).stimFrequency = s.stimFrequency ∧
    (onDisconnected s).stimPulseWidth = s.stimPulseWidth ∧
    (onDisconnected s).stimDuration = s.stimDuration ∧
    (onDisconnected s).stimNumPulses = s.stimNumPulses ∧
    (onDisconnected s).emgThreshold = s.emgThreshold ∧
    (onDisconnected s).triggerMask = s.triggerMask ∧
    (onDisconnected s).wifiSSID = s.wifiSSID ∧
    (onDisconnected s).wifiPassword = s.wifiPassword ∧
    (onDisconnected s).mqttServerPort = s.mqttServerPort ∧
    (onDisconnected s).masterNameAddr = s.masterNameAddr ∧
    (onDisconnected s).minionNameAddr = s.minionNameAddr := by
  simp [onDisconnected]

/-- `readNetworkSettings` attempts exactly the four network identity
strings. -/
theorem readLogUUIDs_netReadLog (dev : Device) :
    readLogUUIDs (netReadLog dev) =
      [UUIDs.wifiSSID, UUIDs.mqttServerPort, UUIDs.masterNameAddr,
       UUIDs.minionNameAddr] := by
  simp [readLogUUIDs, netReadLog, List.filterMap_cons, readUUIDof_entryStr]

/-- The battery attempt inside `onConnect` is always logged against the
standard battery characteristic. -/
theorem readUUIDof_entryBattery (ble : BLE) :
    readUUIDof (entryBattery ble) = some BATTERY_LEVEL_CHAR_UUID := by
  unfold entryBattery readUUIDof
  cases ble.battery with
  | none => rfl
  | some l => cases l <;> rfl

/-- C6 counterexample: on a device exposing everything, the actual attempt
order of a successful connect starts with the battery read (so battery is
not read last even though the characteristic is present and read), and the
connectivity bitmask is among the first five attempts while the stim
frequency is not: the core stimulation parameters are not read as one
group before the connectivity bitmask, refuting the claimed canonical
order. -/
theorem c6_counterexample :
    readLogUUIDs ((onConnect bleAll initState).logLines) =
      BATTERY_LEVEL_CHAR_UUID :: initReadUUIDs ∧
    (readLogUUIDs ((onConnect bleAll initState).logLines)).head? =
      some BATTERY_LEVEL_CHAR_UUID ∧
    (readLogUUIDs ((onConnect bleAll initState).logLines)).getLast? =
      some UUIDs.triggerEnableMask ∧
    UUIDs.triggerEnableMask ≠ BATTERY_LEVEL_CHAR_UUID ∧
    (readLogUUIDs ((onConnect bleAll initState).logLines)).take 5 =
      [BATTERY_LEVEL_CHAR_UUID, UUIDs.operatingMode, UUIDs.stimAmplitude,
       UUIDs.emgThreshold, UUIDs.wifiStatus] ∧
    UUIDs.stimFrequency ∉ (readLogUUIDs ((onConnect bleAll initState).logLines)).take 5 := by
  decide

/-- C6 amended: on every successful connect the read attempts occur in
this order: battery first (via the standard battery characteristic), then
operating mode, stim amplitude, EMG threshold, the connectivity bitmask,
the IP string, the four network identity strings, and the remaining
stimulation parameters (frequency, pulse width, duration, pulse count,
trigger-enable mask) last. -/
theorem c6_read_order (ble : BLE) (dev : Device) (s : AppState)
    (h : ble.hhi = some dev) :
    readLogUUIDs ((onConnect ble s).logLines) =
      readLogUUIDs s.logLines ++ BATTERY_LEVEL_CHAR_UUID :: initReadUUIDs := by
  rw [onConnect_eq ble dev s h]
  simp only [readInitial_eq]
  simp [readLogUUIDs, List.filterMap_append, readUUIDof_entryBattery]
  have h2 := readLogUUIDs_initReadLog dev
  simp [readLogUUIDs] at h2
  simp [h2]

/-- Witness for C6 amended, on the all-available fixture. -/
theorem c6_read_order_witness :
    readLogUUIDs ((onConnect bleAll initState).logLines) =
      readLogUUIDs initState.logLines ++ BATTERY_LEVEL_CHAR_UUID :: initReadUUIDs :=
  c6_read_order bleAll devAll initState rfl

theorem step_preserves_statusCleared (dev : Device) (t : AppState) (e : Event)
    (ht : StatusCleared t) (he : e.isNotif = false) :
    StatusCleared (step dev t e) := by
  obtain ⟨hb, hw, hm, hip, hd, hs⟩ := ht
  cases e
  case notif u b => simp [Event.isNotif] at he
  case linkDrop => exact ⟨rfl, rfl, rfl, rfl, rfl, rfl⟩
  case editMode v =>
    simp only [step]
    split
    · rw [readNetworkSettings_no_svc dev { t with operatingMode := v } hs]
      exact ⟨hb, hw, hm, hip, hd, hs⟩
    · exact ⟨hb, hw, hm, hip, hd, hs⟩
  all_goals exact ⟨hb, hw, hm, hip, hd, hs⟩

theorem foldl_step_statusCleared (dev : Device) (es : List Event) (t : AppState)
    (ht : StatusCleared t) (h : ∀ e ∈ es, e.isNotif = false) :
    StatusCleared (es.foldl (step dev) t) := by
  induction es generalizing t with
  | nil => exact ht
  | cons e tail ih =>
    rw [List.foldl_cons]
    exact ih (step dev t e)
      (step_preserves_statusCleared dev t e ht (h e (by simp)))
      (fun x hx => h x (by simp [hx]))

/-- C7: a disconnect resets battery, Wi-Fi-connected, MQTT-connected and
IP to their defaults (0, false, false, empty) and drops both session
handles; and along any sequence of subsequent events that contains no
notification delivery (the platform stops delivering once the GATT server
is gone), those fields stay at their defaults and the handles stay
invalid, so no notification callback ever mutates the cleared state. -/
theorem c7_disconnect_clears_status (s : AppState) (dev : Device)
    (es : List Event) (h : ∀ e ∈ es, e.isNotif = false) :
    ((onDisconnected s).battery = 0 ∧ (onDisconnected s).wifiConnected = false ∧
     (onDisconnected s).mqttConnected = false ∧ (onDisconnected s).wifiIP = [] ∧
     (onDisconnected s).device = false ∧ (onDisconnected s).hhiSvc = false) ∧
    StatusCleared (es.foldl (step dev) (onDisconnected s)) :=
  ⟨⟨rfl, rfl, rfl, rfl, rfl, rfl⟩,
   foldl_step_statusCleared dev es (onDisconnected s)
     ⟨rfl, rfl, rfl, rfl, rfl, rfl⟩ h⟩

/-- Witness for C7: a connected state with populated status (`sConn`),
dropped and then followed by user edits, including a mode change into a
network mode. -/
theorem c7_disconnect_clears_status_witness :
    ((onDisconnected sConn).battery = 0 ∧
     (onDisconnected sConn).wifiConnected = false ∧
     (onDisconnected sConn).mqttConnected = false ∧
     (onDisconnected sConn).wifiIP = [] ∧
     (onDisconnected sConn).device = false ∧
     (onDisconnected sConn).hhiSvc = false) ∧
    StatusCleared ([Event.editAmplitude 5, Event.editMode 1,
      Event.linkDrop].foldl (step devAll) (onDisconnected sConn)) :=
  c7_disconnect_clears_status sConn devAll _ (by decide)

/-- C8: the Wi-Fi-password register is never read: the initial batch
attempts exactly `initReadUUIDs` (password absent), the network re-read
attempts only the four identity strings (password absent), the battery
read targets the standard battery characteristic, and the notification
wiring never subscribes to the password register. -/
theorem c8_password_never_read (dev : Device) (s : AppState) (ble : BLE) :
    ((readInitial dev s).logLines = s.logLines ++ initReadLog dev ∧
     UUIDs.wifiPassword ∉ readLogUUIDs (initReadLog dev)) ∧
    (((readNetworkSettings dev s).logLines = s.logLines ∧ s.hhiSvc = false) ∨
     ((readNetworkSettings dev s).logLines = s.logLines ++ netReadLog dev ∧
      s.hhiSvc = true)) ∧
    UUIDs.wifiPassword ∉ readLogUUIDs (netReadLog dev) ∧
    readUUIDof (entryBattery ble) = some BATTERY_LEVEL_CHAR_UUID ∧
    BATTERY_LEVEL_CHAR_UUID ≠ UUIDs.wifiPassword ∧
    UUIDs.wifiPassword ∉ subscribeUUIDs := by
  refine ⟨⟨by simp only [readInitial_eq], ?_⟩, ?_,
    ?_, readUUIDof_entryBattery ble, by decide, by decide⟩
  · rw [readLogUUIDs_initReadLog]
    decide
  · cases hsvc : s.hhiSvc with
    | false => exact Or.inl ⟨by rw [readNetworkSettings_no_svc dev s hsvc], rfl⟩
    | true => exact Or.inr ⟨by rw [readNetworkSettings_eq dev s hsvc], rfl⟩
  · rw [readLogUUIDs_netReadLog]
    decide

/-- C3 counterexample: with a connected service and every characteristic
writable, saving with amplitude = -1 does issue the amplitude
characteristic write (with bytes [0xFF, 0xFF]), and likewise amplitude =
70000 issues bytes [0x70, 0x11]; and `encodeStr` encodes a 64-character
string to 64 bytes with no failure — there is no length check and no
`EncodingError` path anywhere in the code. -/
theorem c3_counterexample :
    (UUIDs.stimAmplitude, [0xff, 0xff]) ∈ saveStimSettings (fun _ => true) sNegAmp ∧
    (UUIDs.stimAmplitude, [0x70, 0x11]) ∈ saveStimSettings (fun _ => true) sBigAmp ∧
    encodeStr (List.replicate 64 97) = List.replicate 64 97 ∧
    (encodeStr (List.replicate 64 97)).length = 64 := by
  decide

/-- C3 corrected: no range validation happens before a write: whenever a
service is held and the amplitude characteristic accepts writes,
`saveStimSettings` has the amplitude write as its first issued write, for
any value whatsoever, encoded reduced mod 2^16 (so -1 goes out as [0xFF, 0xFF] and
70000 as [0x70, 0x11]); string encoding is total, with no declared
maximum length and no `EncodingError`. -/
theorem c3_amended_no_range_validation (s : AppState) (wAvail : Nat → Bool)
    (h1 : s.hhiSvc = true) (h2 : wAvail UUIDs.stimAmplitude = true) :
    (saveStimSettings wAvail s).head? =
      some (UUIDs.stimAmplitude, toUint16LE s.stimAmplitude) ∧
    (UUIDs.stimAmplitude, toUint16LE s.stimAmplitude) ∈ saveStimSettings wAvail s ∧
    toUint16LE (-1) = [0xff, 0xff] ∧
    toUint16LE 70000 = [0x70, 0x11] := by
  refine ⟨by simp [saveStimSettings, h1, h2], ?_, by decide, by decide⟩
  simp [saveStimSettings, h1, h2]

/-- Witness for C3 corrected at the -1-amplitude fixture. -/
theorem c3_amended_no_range_validation_witness :
    (saveStimSettings (fun _ => true) sNegAmp).head? =
      some (UUIDs.stimAmplitude, toUint16LE sNegAmp.stimAmplitude) ∧
    (UUIDs.stimAmplitude, toUint16LE sNegAmp.stimAmplitude) ∈
      saveStimSettings (fun _ => true) sNegAmp ∧
    toUint16LE (-1) = [0xff, 0xff] ∧
    toUint16LE 70000 = [0x70, 0x11] :=
  c3_amended_no_range_validation sNegAmp (fun _ => true) rfl rfl

/-- C10: with a connected service and all characteristics writable,
`saveNetworkSettings` writes the password register iff the in-memory
password is non-empty; with an empty password the SSID, MQTT server/port,
master-name and minion-name registers are exactly the writes issued, and
nothing is ever sent to the password register. -/
theorem c10_password_write_iff (s : AppState) (wAvail : Nat → Bool)
    (h1 : s.hhiSvc = true) (hw : ∀ u, wAvail u = true) :
    ((∃ payload, (UUIDs.wifiPassword, payload) ∈ saveNetworkSettings wAvail s) ↔
      s.wifiPassword ≠ []) ∧
    (s.wifiPassword = [] →
      saveNetworkSettings wAvail s =
        [(UUIDs.wifiSSID, encodeStr s.wifiSSID),
         (UUIDs.mqttServerPort, encodeStr s.mqttServerPort),
         (UUIDs.masterNameAddr, encodeStr s.masterNameAddr),
         (UUIDs.minionNameAddr, encodeStr s.minionNameAddr)]) := by
  cases hpw : s.wifiPassword with
  | nil =>
    have he : saveNetworkSettings wAvail s =
        [(UUIDs.wifiSSID, encodeStr s.wifiSSID),
         (UUIDs.mqttServerPort, encodeStr s.mqttServerPort),
         (UUIDs.masterNameAddr, encodeStr s.masterNameAddr),
         (UUIDs.minionNameAddr, encodeStr s.minionNameAddr)] := by
      simp [saveNetworkSettings, h1, hw, hpw]
    refine ⟨?_, fun _ => he⟩
    rw [he]
    constructor
    · rintro ⟨p, hp⟩
      simp [UUIDs.wifiSSID, UUIDs.wifiPassword, UUIDs.mqttServerPort,
        UUIDs.masterNameAddr, UUIDs.minionNameAddr] at hp
    · intro hne
      exact absurd rfl hne
  | cons c cs =>
    refine ⟨⟨fun _ => by simp [hpw], fun _ => ?_⟩, fun hc => ?_⟩
    · refine ⟨encodeStr s.wifiPassword, ?_⟩
      simp [saveNetworkSettings, h1, hw, hpw]
    · exact absurd hc (by simp)

/-- Witness for C10 at the empty-password connected fixture. -/
theorem c10_password_write_iff_witness :
    ((∃ payload, (UUIDs.wifiPassword, payload) ∈
        saveNetworkSettings (fun _ => true) sConn) ↔ sConn.wifiPassword ≠ []) ∧
    (sConn.wifiPassword = [] →
      saveNetworkSettings (fun _ => true) sConn =
        [(UUIDs.wifiSSID, encodeStr sConn.wifiSSID),
         (UUIDs.mqttServerPort, encodeStr sConn.mqttServerPort),
         (UUIDs.masterNameAddr, encodeStr sConn.masterNameAddr),
         (UUIDs.minionNameAddr, encodeStr sConn.minionNameAddr)]) :=
  c10_password_write_iff sConn (fun _ => true) rfl (fun _ => rfl)

end HHI
